import Mathlib

/-!
Verification development for a client-side facade over the Robocorp Control
Room REST API (`src/actions.py`, `src/models.py`).

The remote HTTP world is modelled as an oracle: a GET network is a function
from the request URL to an `HttpResp`, and a POST network additionally takes
the optional JSON body that was sent.  Python-level JSON documents are
modelled by the inductive type `Json`; Python truthiness (used by
`while has_more and next_url` and by `if work_item_id and payload`) is
`Json.truthy`.  The unbounded `while` loop of `list_work_items` is embedded
with an explicit fuel parameter: the loop function returns `none` when the
fuel is exhausted while the loop condition still holds, so `none` is
observationally "the loop has not terminated within `fuel` iterations".
Fallible code returns `Except String` mirroring `ActionError` messages.
-/

/-- A JSON document, as manipulated by the Python source. -/
inductive Json where
  | null : Json
  | bool (b : Bool) : Json
  | num (n : Int) : Json
  | str (s : String) : Json
  | arr (items : List Json) : Json
  | obj (fields : List (String × Json)) : Json

/-- Python truthiness of a JSON value (`if x:` / `while x:`). -/
def Json.truthy : Json → Bool
  | .null => false
  | .bool b => b
  | .num n => n != 0
  | .str s => !s.isEmpty
  | .arr items => !items.isEmpty
  | .obj fields => !fields.isEmpty

/-- Python `dict.get(key, default)`.  A key that is present with value
`null` yields `null`, not the default.  On a non-object the Python source
would raise `AttributeError`; no claim exercises that corner, and the
model returns the default there. -/
def Json.getD (j : Json) (key : String) (default : Json) : Json :=
  match j with
  | .obj fields =>
    match fields.lookup key with
    | some v => v
    | none => default
  | _ => default

/-- One HTTP response: `status_code`, decoded `.json()` body, raw `.text`. -/
structure HttpResp where
  status : Nat
  body : Json
  text : String

/-- A GET network oracle: the response the remote returns for each URL.
The Python source passes the raw `next` JSON value back into
`requests.get`, so the oracle takes a `Json` argument; real URLs are
`Json.str` values. -/
def GetNet : Type := Json → HttpResp

/-- A POST network oracle: URL and optional JSON body sent. -/
def PostNet : Type := String → Option Json → HttpResp

/-- Configuration fixed at startup in the source (`WORKSPACE_ID` env var)
is passed explicitly; the base URL is the constant from `actions.py`. -/
def BASE_URL : String := "https://cloud.robocorp.com/api/v1/workspaces"

/-- `make_get_request` from `actions.py`: status 200/201 returns the
decoded body, anything else raises `ActionError` with the raw text. -/
def make_get_request (net : GetNet) (url : Json) : Except String Json :=
  let response := net url
  if response.status = 200 ∨ response.status = 201 then
    .ok response.body
  else
    .error ("Failed to retrieve data: " ++ response.text)

/-- `ListProcessRunsInput` from `models.py`: pydantic defaults are the
structure-field defaults (`limit` defaults to `10` when the field is
omitted; an explicit `null` gives `none`). -/
structure ListProcessRunsInput where
  process_id : String
  limit : Option Int := some 10
  state : Option String := none

/-- The state allow-set of `list_process_runs`. -/
def processRunStates : List String :=
  ["new", "in_progress", "completed", "unresolved", "stopping"]

/-- URL built by `list_process_runs` before the GET is issued. -/
def list_process_runs_url (ws : String) (input_data : ListProcessRunsInput) : String :=
  let url := BASE_URL ++ "/" ++ ws ++ "/process-runs?process_id=" ++ input_data.process_id
  let url := match input_data.limit with
    | some l => url ++ "&limit=" ++ toString l
    | none => url
  match input_data.state with
  | some s => if processRunStates.contains s then url ++ "&state=" ++ s else url
  | none => url

/-- `list_process_runs` from `actions.py`. -/
def list_process_runs (net : GetNet) (ws : String) (input_data : ListProcessRunsInput) :
    Except String Json :=
  make_get_request net (Json.str (list_process_runs_url ws input_data))

/-- `ListWorkItemsInput` from `models.py`. -/
structure ListWorkItemsInput where
  process_id : String
  process_run_id : String
  state : Option String := none

/-- The state allow-set of `list_work_items`. -/
def workItemStates : List String :=
  ["new", "pending", "in_progress", "failed", "done"]

/-- URL built by `list_work_items` before aggregation begins. -/
def list_work_items_url (ws : String) (input_data : ListWorkItemsInput) : String :=
  let url := BASE_URL ++ "/" ++ ws ++ "/work-items?process_id=" ++ input_data.process_id
      ++ "&process_run_id=" ++ input_data.process_run_id
  match input_data.state with
  | some s => if workItemStates.contains s then url ++ "&state=" ++ s else url
  | none => url

/-- Python `result_data.extend(additional_data)` for JSON arrays.  The
source would raise `TypeError` when `result_data` is not a list, and would
iterate characters/keys for a string/dict `additional_data`; no claim
exercises those corners and the model turns them into an error. -/
def extendData (result_data additional_data : Json) : Except String Json :=
  match result_data, additional_data with
  | .arr xs, .arr ys => .ok (.arr (xs ++ ys))
  | _, _ => .error "TypeError: list.extend expects lists"

/-- The `while has_more and next_url` loop of `list_work_items`, with
explicit fuel.  `none` means the loop condition still held after `fuel`
iterations (the loop has not terminated). -/
def listLoop (net : GetNet) : Nat → Json → Json → Json → Option (Except String Json)
  | 0, result_data, has_more, next_url =>
    if has_more.truthy && next_url.truthy then none else some (.ok result_data)
  | fuel + 1, result_data, has_more, next_url =>
    if has_more.truthy && next_url.truthy then
      match make_get_request net next_url with
      | .error e => some (.error e)
      | .ok body =>
        match extendData result_data (body.getD "data" (Json.arr [])) with
        | .error e => some (.error e)
        | .ok new_data =>
          listLoop net fuel new_data (body.getD "has_more" (Json.bool false))
            (body.getD "next" Json.null)
    else some (.ok result_data)

/-- `list_work_items` from `actions.py`: first GET, then the pagination
loop, then `Response(result={"data": result_data})`. -/
def list_work_items (net : GetNet) (fuel : Nat) (ws : String)
    (input_data : ListWorkItemsInput) : Option (Except String Json) :=
  match make_get_request net (Json.str (list_work_items_url ws input_data)) with
  | .error e => some (.error e)
  | .ok body =>
    let result_data := body.getD "data" (Json.arr [])
    let has_more := body.getD "has_more" (Json.bool false)
    let next_url := body.getD "next" Json.null
    (listLoop net fuel result_data has_more next_url).map
      (Except.map fun d => Json.obj [("data", d)])

/-- URL of a single work item, as built inside `get_all_work_items`. -/
def work_item_url (ws work_item_id : String) : String :=
  BASE_URL ++ "/" ++ ws ++ "/work-items/" ++ work_item_id

/-- The three-field projection built inside the `get_all_work_items` loop:
`{"id": .., "exception": .., "payload": ..}` with `dict.get` `None`
defaults. -/
def projectWorkItem (body : Json) : Json :=
  Json.obj [("id", body.getD "id" Json.null),
    ("exception", body.getD "exception" Json.null),
    ("payload", body.getD "payload" Json.null)]

/-- The per-identifier loop of `get_all_work_items`: fetch each id in
order, project, append; the first `ActionError` propagates. -/
def getAllLoop (net : GetNet) (ws : String) : List String → Except String (List Json)
  | [] => .ok []
  | work_item_id :: rest =>
    match make_get_request net (Json.str (work_item_url ws work_item_id)) with
    | .error e => .error e
    | .ok body => (getAllLoop net ws rest).map (fun l => projectWorkItem body :: l)

/-- `get_all_work_items` from `actions.py`. -/
def get_all_work_items (net : GetNet) (ws : String) (work_item_ids : List String) :
    Except String Json :=
  (getAllLoop net ws work_item_ids).map (fun l => Json.obj [("data", Json.arr l)])

/-- `WorkItemUpdate` from `models.py`; pydantic guarantees `payload` is a
dict, modelled as its field list. -/
structure WorkItemUpdate where
  work_item_id : String
  payload : List (String × Json)

/-- The `if work_item_id and payload:` pre-filter of
`update_work_item_payloads` (Python truthiness: non-empty string and
non-empty dict). -/
def isValidUpdate (u : WorkItemUpdate) : Bool :=
  !u.work_item_id.isEmpty && !u.payload.isEmpty

/-- Payload-update URL built inside the `update_work_item_payloads` loop. -/
def updateUrl (ws work_item_id : String) : String :=
  BASE_URL ++ "/" ++ ws ++ "/work-items/" ++ work_item_id ++ "/payload"

/-- The JSON body sent by the update POST: `json={"payload": payload}`. -/
def updateBody (payload : List (String × Json)) : Json :=
  Json.obj [("payload", Json.obj payload)]

/-- Success record appended on status 200/201. -/
def successRecord (u : WorkItemUpdate) (response : HttpResp) : Json :=
  Json.obj [("work_item_id", Json.str u.work_item_id),
    ("status", Json.str "success"), ("response", response.body)]

/-- Failure record appended on any other status. -/
def failureRecord (u : WorkItemUpdate) (response : HttpResp) : Json :=
  Json.obj [("work_item_id", Json.str u.work_item_id),
    ("status", Json.str "failure"), ("error", Json.str response.text)]

/-- The loop body of `update_work_item_payloads` for one valid entry:
POST the new payload, classify by status. -/
def singleUpdateOutcome (post : PostNet) (ws : String) (u : WorkItemUpdate) : Json :=
  let response := post (updateUrl ws u.work_item_id) (some (updateBody u.payload))
  if response.status = 200 ∨ response.status = 201 then successRecord u response
  else failureRecord u response

/-- The accumulation loop of `update_work_item_payloads`: valid entries
contribute their outcome record, invalid entries are skipped. -/
def updateResults (post : PostNet) (ws : String) : List WorkItemUpdate → List Json
  | [] => []
  | u :: rest =>
    if isValidUpdate u then singleUpdateOutcome post ws u :: updateResults post ws rest
    else updateResults post ws rest

/-- `update_work_item_payloads` from `actions.py`:
`Response(result={"updates": update_results})`.  Total: no remote failure
raises. -/
def update_work_item_payloads (post : PostNet) (ws : String)
    (work_item_updates : List WorkItemUpdate) : Json :=
  Json.obj [("updates", Json.arr (updateResults post ws work_item_updates))]

/-!
Test harness for the pagination claims: a "chain" network serving a fixed
finite list of pages.  Page `i`'s response carries `next` pointing at page
`i + 1` (a numeric token; the oracle accepts any `Json` URL, matching the
source's passing of the raw `next` value to `requests.get`), so every page
that has `has_more = true` supplies a non-null, truthy `next`.
-/

/-- One simulated page response.  `data = none` omits the `data` field
entirely (the source then defaults it to the empty list). -/
structure Page where
  status : Nat
  text : String
  data : Option (List Json)
  has_more : Bool

/-- The JSON body served for a page whose successor token is `nextIdx`. -/
def pageBody (p : Page) (nextIdx : Nat) : Json :=
  Json.obj ((match p.data with
    | some d => [("data", Json.arr d)]
    | none => []) ++
    [("has_more", Json.bool p.has_more), ("next", Json.num (nextIdx : Int))])

/-- Response for URLs the chain does not serve. -/
def notFoundResp : HttpResp := ⟨404, Json.null, "page index out of range"⟩

/-- Response of the chain for page index `i`. -/
def pageResp (pages : List Page) (i : Nat) : HttpResp :=
  match pages[i]? with
  | some p => ⟨p.status, pageBody p (i + 1), p.text⟩
  | none => notFoundResp

/-- The chain network: the base URL serves page 0, numeric token `i`
serves page `i`. -/
def chainNet (base : String) (pages : List Page) : GetNet := fun url =>
  match url with
  | .str s => if s = base then pageResp pages 0 else notFoundResp
  | .num n => if n < 0 then notFoundResp else pageResp pages n.toNat
  | _ => notFoundResp

/-- Reference recursion: what draining the chain yields, page by page.
An empty remainder is only reached when the previous page claimed
`has_more` with no page left, so it is the out-of-range error. -/
def drainPages : List Page → Except String (List Json)
  | [] => .error ("Failed to retrieve data: " ++ notFoundResp.text)
  | p :: rest =>
    if p.status = 200 ∨ p.status = 201 then
      if p.has_more then (drainPages rest).map (fun more => p.data.getD [] ++ more)
      else .ok (p.data.getD [])
    else .error ("Failed to retrieve data: " ++ p.text)

/-- `start_process_run` from `actions.py` (POST with no body). -/
def start_process_run (post : PostNet) (ws process_id : String) : Except String Json :=
  let url := BASE_URL ++ "/" ++ ws ++ "/processes/" ++ process_id ++ "/process-runs"
  let response := post url none
  if response.status = 200 ∨ response.status = 201 then .ok response.body
  else .error ("Failed to start process run: " ++ response.text)

/-- `retry_work_items` from `actions.py`: one batch POST. -/
def retry_work_items (post : PostNet) (ws : String) (work_item_ids : List String) :
    Except String Json :=
  let url := BASE_URL ++ "/" ++ ws ++ "/work-items/batch"
  let payload := Json.obj [("batch_operation", Json.str "retry"),
    ("work_item_ids", Json.arr (work_item_ids.map Json.str))]
  let response := post url (some payload)
  if response.status = 200 ∨ response.status = 201 then .ok response.body
  else .error ("Failed to retry work items: " ++ response.text)

/-- An adversarial remote that always answers `has_more = true` with a
non-null `next`: under it the pagination loop never terminates. -/
def loopingNet : GetNet := fun _ =>
  ⟨200, Json.obj [("data", Json.arr []), ("has_more", Json.bool true),
    ("next", Json.str "u")], ""⟩

theorem pageBody_getD_data (p : Page) (i : Nat) :
    (pageBody p i).getD "data" (Json.arr []) = Json.arr (p.data.getD []) := by
  cases h : p.data <;> simp only [pageBody, h] <;> rfl

theorem pageBody_getD_has_more (p : Page) (i : Nat) :
    (pageBody p i).getD "has_more" (Json.bool false) = Json.bool p.has_more := by
  cases h : p.data <;> simp only [pageBody, h] <;> rfl

theorem pageBody_getD_next (p : Page) (i : Nat) :
    (pageBody p i).getD "next" Json.null = Json.num (i : Int) := by
  cases h : p.data <;> simp only [pageBody, h] <;> rfl

theorem chainNet_str_base (base : String) (pages : List Page) :
    chainNet base pages (Json.str base) = pageResp pages 0 := by
  simp [chainNet]

theorem chainNet_num (base : String) (pages : List Page) (j : Nat) :
    chainNet base pages (Json.num (j : Int)) = pageResp pages j := by
  show (if ((j : Int)) < 0 then notFoundResp else pageResp pages ((j : Int)).toNat)
      = pageResp pages j
  rw [if_neg (by omega), Int.toNat_ofNat]

theorem listLoop_exit (net : GetNet) (fuel : Nat) (rd hm nu : Json)
    (h : (hm.truthy && nu.truthy) = false) :
    listLoop net fuel rd hm nu = some (.ok rd) := by
  cases fuel <;> simp [listLoop, h]

theorem listLoop_chainNet (base : String) (pages : List Page) :
    ∀ (fuel : Nat), ∀ (j : Nat) (d : List Json), 1 ≤ j → j ≤ pages.length →
      pages.length + 1 ≤ fuel + j →
      listLoop (chainNet base pages) fuel (Json.arr d) (Json.bool true)
          (Json.num (j : Int)) =
        some ((drainPages (pages.drop j)).map (fun more => Json.arr (d ++ more))) := by
  intro fuel
  induction fuel with
  | zero => intro j d h1 h2 h3; omega
  | succ fuel ih =>
    intro j d h1 h2 h3
    have hcond : ((Json.bool true).truthy && (Json.num (j : Int)).truthy) = true := by
      simp [Json.truthy, bne_iff_ne]
      omega
    rw [listLoop, if_pos hcond]
    simp only [make_get_request, chainNet_num]
    cases hpj : pages[j]? with
    | none =>
      have hlen : pages.length ≤ j := List.getElem?_eq_none_iff.mp hpj
      have hdrop : pages.drop j = [] := List.drop_eq_nil_of_le hlen
      simp only [pageResp, hpj]
      rw [if_neg (by decide)]
      simp [hdrop, drainPages, notFoundResp, Except.map]
    | some p =>
      obtain ⟨hjlt, hpget⟩ := List.getElem?_eq_some.mp hpj
      have hdrop : pages.drop j = p :: pages.drop (j + 1) := by
        rw [List.drop_eq_getElem_cons hjlt, hpget]
      simp only [pageResp, hpj]
      by_cases hs : p.status = 200 ∨ p.status = 201
      · rw [if_pos hs]
        simp only [pageBody_getD_data, pageBody_getD_has_more, pageBody_getD_next,
          extendData]
        cases hm : p.has_more with
        | false =>
          rw [listLoop_exit _ fuel _ _ _ (by simp [Json.truthy])]
          rw [hdrop]
          simp [drainPages, hs, hm, Except.map]
        | true =>
          rw [ih (j + 1) (d ++ p.data.getD []) (by omega) (by omega) (by omega)]
          rw [hdrop]
          simp only [drainPages, if_pos hs, hm, if_true]
          cases hdr : drainPages (pages.drop (j + 1)) <;>
            simp [hdr, Except.map, List.append_assoc]
      · rw [if_neg hs]
        rw [hdrop]
        simp [drainPages, hs, Except.map]

theorem list_work_items_chainNet (ws : String) (input_data : ListWorkItemsInput)
    (pages : List Page) (fuel : Nat) (hfuel : pages.length ≤ fuel) :
    list_work_items (chainNet (list_work_items_url ws input_data) pages) fuel ws input_data
      = some ((drainPages pages).map (fun d => Json.obj [("data", Json.arr d)])) := by
  simp only [list_work_items, make_get_request, chainNet_str_base]
  cases pages with
  | nil =>
    simp [pageResp, notFoundResp, drainPages, Except.map]
  | cons p rest =>
    simp only [pageResp, List.getElem?_cons_zero]
    by_cases hs : p.status = 200 ∨ p.status = 201
    · rw [if_pos hs]
      simp only [pageBody_getD_data, pageBody_getD_has_more, pageBody_getD_next]
      cases hm : p.has_more with
      | false =>
        rw [listLoop_exit _ fuel _ _ _ (by simp [Json.truthy])]
        simp [drainPages, hs, hm, Except.map]
      | true =>
        rw [listLoop_chainNet (list_work_items_url ws input_data) (p :: rest)
          fuel 1 (p.data.getD []) (by omega) (by simp only [List.length_cons]; omega)
          (by simp only [List.length_cons] at hfuel ⊢; omega)]
        cases hdr : drainPages rest <;>
          simp [drainPages, if_pos hs, hm, hdr, Except.map]
    · rw [if_neg hs]
      simp [drainPages, hs, Except.map]

theorem drainPages_complete (pages : List Page) :
    pages ≠ [] →
    (∀ i (h : i < pages.length), (pages[i]).status = 200 ∨ (pages[i]).status = 201) →
    (∀ i (h : i < pages.length), ((pages[i]).has_more = true ↔ i + 1 < pages.length)) →
    drainPages pages = .ok (pages.flatMap (fun p => p.data.getD [])) := by
  induction pages with
  | nil => intro h; exact absurd rfl h
  | cons p rest ih =>
    intro _ hstatus hmore
    have hs : p.status = 200 ∨ p.status = 201 := by
      simpa using hstatus 0 (by simp only [List.length_cons]; omega)
    cases rest with
    | nil =>
      have hm : p.has_more = false := by
        have h0 := hmore 0 (by simp only [List.length_cons]; omega)
        simpa using h0
      simp [drainPages, hs, hm]
    | cons q rest2 =>
      have hm : p.has_more = true := by
        have h0 := hmore 0 (by simp only [List.length_cons]; omega)
        rw [List.getElem_cons_zero] at h0
        exact h0.mpr (by simp only [List.length_cons]; omega)
      have hih := ih (by simp)
        (fun i h => by
          have h2 := hstatus (i + 1) (by simp only [List.length_cons] at h ⊢; omega)
          simpa using h2)
        (fun i h => by
          have h2 := hmore (i + 1) (by simp only [List.length_cons] at h ⊢; omega)
          simp only [List.getElem_cons_succ, List.length_cons] at h2 ⊢
          constructor
          · intro hb; have := h2.mp hb; omega
          · intro hlt; exact h2.mpr (by omega))
      simp only [drainPages] at hih ⊢
      rw [hih]
      simp [hs, hm, Except.map]

/-- Claim C1: on every chain of page responses in which each page with
`has_more = true` supplies a non-null `next` URL (the chain network does
so by construction) and the pages form a complete listing (`has_more` is
true exactly on non-final pages), `list_work_items` returns a result
whose `data` field is the order-preserving concatenation of every page's
`data` array, reading `data` as the empty sequence when absent. -/
theorem list_work_items_pagination_completeness (ws : String)
    (input_data : ListWorkItemsInput) (pages : List Page) (fuel : Nat)
    (hne : pages ≠ [])
    (hfuel : pages.length ≤ fuel)
    (hstatus : ∀ i (h : i < pages.length),
      (pages[i]).status = 200 ∨ (pages[i]).status = 201)
    (hmore : ∀ i (h : i < pages.length),
      ((pages[i]).has_more = true ↔ i + 1 < pages.length)) :
    list_work_items (chainNet (list_work_items_url ws input_data) pages) fuel ws input_data
      = some (.ok (Json.obj
          [("data", Json.arr (pages.flatMap (fun p => p.data.getD [])))])) := by
  rw [list_work_items_chainNet ws input_data pages fuel hfuel,
    drainPages_complete pages hne hstatus hmore]
  rfl

theorem list_work_items_pagination_completeness_witness :
    list_work_items
        (chainNet (list_work_items_url "w" ⟨"p", "r", none⟩)
          [⟨200, "", some [Json.str "a", Json.str "b"], true⟩,
           ⟨200, "", some [Json.str "c", Json.str "d"], true⟩,
           ⟨200, "", some [Json.str "e"], false⟩])
        3 "w" ⟨"p", "r", none⟩
      = some (.ok (Json.obj [("data", Json.arr
          [Json.str "a", Json.str "b", Json.str "c", Json.str "d",
            Json.str "e"])])) := by
  have h := list_work_items_pagination_completeness "w" ⟨"p", "r", none⟩
    [⟨200, "", some [Json.str "a", Json.str "b"], true⟩,
     ⟨200, "", some [Json.str "c", Json.str "d"], true⟩,
     ⟨200, "", some [Json.str "e"], false⟩]
    3 (by simp) (by decide) (by decide) (by decide)
  simpa using h

theorem drainPages_failfast :
    ∀ (pre : List Page) (bad : Page) (post : List Page),
      (∀ p ∈ pre, (p.status = 200 ∨ p.status = 201) ∧ p.has_more = true) →
      ¬(bad.status = 200 ∨ bad.status = 201) →
      drainPages (pre ++ bad :: post) =
        .error ("Failed to retrieve data: " ++ bad.text) := by
  intro pre
  induction pre with
  | nil => intro bad post hok hbad; simp [drainPages, hbad]
  | cons p rest ih =>
    intro bad post hok hbad
    have hp := hok p (by simp)
    have hrest := ih bad post (fun q hq => hok q (by simp [hq])) hbad
    simp [drainPages, hp.1, hp.2, hrest, Except.map]

theorem getAllLoop_failfast (net : GetNet) (ws : String) :
    ∀ (pre : List String) (bad : String) (post : List String),
      (∀ id ∈ pre, (net (Json.str (work_item_url ws id))).status = 200 ∨
        (net (Json.str (work_item_url ws id))).status = 201) →
      ¬((net (Json.str (work_item_url ws bad))).status = 200 ∨
        (net (Json.str (work_item_url ws bad))).status = 201) →
      getAllLoop net ws (pre ++ bad :: post) =
        .error ("Failed to retrieve data: "
          ++ (net (Json.str (work_item_url ws bad))).text) := by
  intro pre
  induction pre with
  | nil => intro bad post hok hbad; simp [getAllLoop, make_get_request, hbad]
  | cons a rest ih =>
    intro bad post hok hbad
    have ha := hok a (by simp)
    have hrest := ih bad post (fun id hid => hok id (by simp [hid])) hbad
    simp [getAllLoop, make_get_request, ha, hrest, Except.map]

/-- Claim C4: a failing Gateway call (status outside 200/201) during
`list_work_items` pagination, or during `get_all_work_items` per-item
fetching, makes the whole operation raise that call's error: all data
accumulated before the failing call is discarded (the result is the bare
error), and the responses served for anything after the failing call
(`post`, and the tail of the chain) are irrelevant to the result — no
further Gateway call can influence it. -/
theorem fail_fast_no_partial_data :
    (∀ (ws : String) (input_data : ListWorkItemsInput) (pre : List Page) (bad : Page)
        (post : List Page) (fuel : Nat),
      (pre ++ bad :: post).length ≤ fuel →
      (∀ p ∈ pre, (p.status = 200 ∨ p.status = 201) ∧ p.has_more = true) →
      ¬(bad.status = 200 ∨ bad.status = 201) →
      list_work_items (chainNet (list_work_items_url ws input_data) (pre ++ bad :: post))
          fuel ws input_data
        = some (.error ("Failed to retrieve data: " ++ bad.text)))
    ∧ (∀ (net : GetNet) (ws : String) (pre : List String) (bad : String)
        (post : List String),
      (∀ id ∈ pre, (net (Json.str (work_item_url ws id))).status = 200 ∨
        (net (Json.str (work_item_url ws id))).status = 201) →
      ¬((net (Json.str (work_item_url ws bad))).status = 200 ∨
        (net (Json.str (work_item_url ws bad))).status = 201) →
      get_all_work_items net ws (pre ++ bad :: post) =
        .error ("Failed to retrieve data: "
          ++ (net (Json.str (work_item_url ws bad))).text)) := by
  constructor
  · intro ws input_data pre bad post fuel hfuel hok hbad
    rw [list_work_items_chainNet ws input_data _ fuel hfuel,
      drainPages_failfast pre bad post hok hbad]
    rfl
  · intro net ws pre bad post hok hbad
    rw [get_all_work_items, getAllLoop_failfast net ws pre bad post hok hbad]
    rfl

theorem fail_fast_no_partial_data_witness :
    list_work_items (chainNet (list_work_items_url "w" ⟨"p", "r", none⟩)
        [⟨200, "", some [Json.str "a", Json.str "b"], true⟩,
         ⟨500, "boom", some [Json.str "c"], true⟩,
         ⟨200, "", some [Json.str "d"], false⟩]) 3 "w" ⟨"p", "r", none⟩
      = some (.error "Failed to retrieve data: boom")
    ∧ get_all_work_items (fun url =>
        match url with
        | Json.str s =>
          if s = work_item_url "w" "b" then ⟨500, Json.null, "boom"⟩
          else ⟨200, Json.obj [("id", Json.str "x")], ""⟩
        | _ => ⟨200, Json.null, ""⟩) "w" ["a", "b", "c"]
      = .error "Failed to retrieve data: boom" := by
  constructor
  · have h := fail_fast_no_partial_data.1 "w" ⟨"p", "r", none⟩
      [⟨200, "", some [Json.str "a", Json.str "b"], true⟩]
      ⟨500, "boom", some [Json.str "c"], true⟩
      [⟨200, "", some [Json.str "d"], false⟩] 3 (by decide) (by decide) (by decide)
    simpa using h
  · have h := fail_fast_no_partial_data.2 (fun url =>
        match url with
        | Json.str s =>
          if s = work_item_url "w" "b" then ⟨500, Json.null, "boom"⟩
          else ⟨200, Json.obj [("id", Json.str "x")], ""⟩
        | _ => ⟨200, Json.null, ""⟩) "w" ["a"] "b" ["c"] (by decide) (by decide)
    simpa using h

theorem getAllLoop_ok (net : GetNet) (ws : String) :
    ∀ (ids : List String),
      (∀ id ∈ ids, (net (Json.str (work_item_url ws id))).status = 200 ∨
        (net (Json.str (work_item_url ws id))).status = 201) →
      getAllLoop net ws ids =
        .ok (ids.map (fun id =>
          projectWorkItem (net (Json.str (work_item_url ws id))).body)) := by
  intro ids
  induction ids with
  | nil => intro h; rfl
  | cons a rest ih =>
    intro h
    have ha := h a (by simp)
    have hrest := ih (fun id hid => h id (by simp [hid]))
    simp [getAllLoop, make_get_request, ha, hrest, Except.map]

/-- Claim C6: when every per-item GET succeeds, `get_all_work_items`
returns exactly one projected record per supplied identifier, in input
order (duplicate identifiers yield redundant records, fetched again), and
each record is the three-field projection `id`/`exception`/`payload` of
the fetched full record, with missing fields defaulted to null and all
other remote fields dropped. -/
theorem get_all_work_items_projection (net : GetNet) (ws : String)
    (work_item_ids : List String)
    (hok : ∀ id ∈ work_item_ids,
      (net (Json.str (work_item_url ws id))).status = 200 ∨
      (net (Json.str (work_item_url ws id))).status = 201) :
    get_all_work_items net ws work_item_ids =
      .ok (Json.obj [("data", Json.arr (work_item_ids.map
        (fun id => projectWorkItem (net (Json.str (work_item_url ws id))).body)))]) := by
  rw [get_all_work_items, getAllLoop_ok net ws work_item_ids hok]
  rfl

theorem get_all_work_items_projection_witness :
    get_all_work_items (fun url =>
        match url with
        | Json.str s =>
          if s = work_item_url "w" "a" then
            ⟨200, Json.obj [("id", Json.str "a"), ("state", Json.str "done"),
              ("payload", Json.obj [("k", Json.num 1)]),
              ("created_at", Json.str "t")], ""⟩
          else ⟨200, Json.obj [("id", Json.str "b"), ("exception", Json.str "err")], ""⟩
        | _ => ⟨200, Json.null, ""⟩) "w" ["a", "b", "a"]
      = .ok (Json.obj [("data", Json.arr
          [Json.obj [("id", Json.str "a"), ("exception", Json.null),
            ("payload", Json.obj [("k", Json.num 1)])],
           Json.obj [("id", Json.str "b"), ("exception", Json.str "err"),
            ("payload", Json.null)],
           Json.obj [("id", Json.str "a"), ("exception", Json.null),
            ("payload", Json.obj [("k", Json.num 1)])]])]) := by
  have h := get_all_work_items_projection (fun url =>
      match url with
      | Json.str s =>
        if s = work_item_url "w" "a" then
          ⟨200, Json.obj [("id", Json.str "a"), ("state", Json.str "done"),
            ("payload", Json.obj [("k", Json.num 1)]),
            ("created_at", Json.str "t")], ""⟩
        else ⟨200, Json.obj [("id", Json.str "b"), ("exception", Json.str "err")], ""⟩
      | _ => ⟨200, Json.null, ""⟩) "w" ["a", "b", "a"] (by decide)
  exact h.trans (by rfl)

theorem listLoop_loopingNet (fuel : Nat) : ∀ (l : List Json),
    listLoop loopingNet fuel (Json.arr l) (Json.bool true) (Json.str "u") = none := by
  induction fuel with
  | zero => intro l; rfl
  | succ fuel ih =>
    intro l
    exact ih (l ++ [])

/-- Claim C5: the pagination loop terminates exactly when `has_more` is
falsy (false or absent) or `next` is falsy (null or absent), and in no
other way.  Part 1: whenever either loop variable is falsy the loop
returns the accumulated data at once, at any fuel.  Part 2: when the
first page response already has a falsy `has_more` or a falsy `next`, the
whole operation returns that single page's data at any fuel (even zero,
so no loop iteration runs) and depends only on the base-URL response
(`net2` may behave arbitrarily elsewhere) — exactly one Gateway call.
Part 3: against a remote that always claims more pages with a non-null
`next`, the loop never terminates at any fuel, so the stated condition is
the only exit. -/
theorem list_work_items_termination :
    (∀ (net : GetNet) (fuel : Nat) (rd hm nu : Json),
      hm.truthy = false ∨ nu.truthy = false →
      listLoop net fuel rd hm nu = some (.ok rd))
    ∧ (∀ (net net2 : GetNet) (fuel : Nat) (ws : String)
        (input_data : ListWorkItemsInput),
      net2 (Json.str (list_work_items_url ws input_data))
          = net (Json.str (list_work_items_url ws input_data)) →
      ((net (Json.str (list_work_items_url ws input_data))).status = 200 ∨
        (net (Json.str (list_work_items_url ws input_data))).status = 201) →
      (((net (Json.str (list_work_items_url ws input_data))).body.getD "has_more"
          (Json.bool false)).truthy = false ∨
        ((net (Json.str (list_work_items_url ws input_data))).body.getD "next"
          Json.null).truthy = false) →
      list_work_items net2 fuel ws input_data
        = some (.ok (Json.obj [("data",
            (net (Json.str (list_work_items_url ws input_data))).body.getD "data"
              (Json.arr []))])))
    ∧ (∀ (fuel : Nat) (ws : String) (input_data : ListWorkItemsInput),
      list_work_items loopingNet fuel ws input_data = none) := by
  refine ⟨?_, ?_, ?_⟩
  · intro net fuel rd hm nu h
    apply listLoop_exit
    rcases h with h | h <;> simp [h]
  · intro net net2 fuel ws input_data hagree hstat hterm
    have hexit := listLoop_exit net2 fuel
      ((net (Json.str (list_work_items_url ws input_data))).body.getD "data"
        (Json.arr []))
      ((net (Json.str (list_work_items_url ws input_data))).body.getD "has_more"
        (Json.bool false))
      ((net (Json.str (list_work_items_url ws input_data))).body.getD "next"
        Json.null)
      (by rcases hterm with h | h <;> simp [h])
    simp only [list_work_items, make_get_request, hagree]
    rw [if_pos hstat]
    simp [hexit, Except.map]
  · intro fuel ws input_data
    show (listLoop loopingNet fuel (Json.arr []) (Json.bool true)
        (Json.str "u")).map (Except.map fun d => Json.obj [("data", d)]) = none
    rw [listLoop_loopingNet fuel []]
    rfl

theorem list_work_items_termination_witness :
    listLoop (fun _ => ⟨200, Json.null, ""⟩) 5 (Json.arr [])
        (Json.bool false) (Json.str "u") = some (.ok (Json.arr []))
    ∧ list_work_items (fun _ => ⟨200, Json.obj [("data", Json.arr [Json.num 7])], ""⟩)
        0 "w" ⟨"p", "r", none⟩
      = some (.ok (Json.obj [("data", Json.arr [Json.num 7])]))
    ∧ list_work_items loopingNet 7 "w" ⟨"p", "r", none⟩ = none := by
  refine ⟨?_, ?_, ?_⟩
  · exact list_work_items_termination.1 (fun _ => ⟨200, Json.null, ""⟩) 5
      (Json.arr []) (Json.bool false) (Json.str "u") (Or.inl (by decide))
  · have h := list_work_items_termination.2.1
      (fun _ => ⟨200, Json.obj [("data", Json.arr [Json.num 7])], ""⟩)
      (fun _ => ⟨200, Json.obj [("data", Json.arr [Json.num 7])], ""⟩)
      0 "w" ⟨"p", "r", none⟩ rfl (by decide) (Or.inl (by decide))
    exact h.trans (by rfl)
  · exact list_work_items_termination.2.2 7 "w" ⟨"p", "r", none⟩

theorem updateResults_eq (post : PostNet) (ws : String) :
    ∀ (work_item_updates : List WorkItemUpdate),
      updateResults post ws work_item_updates =
        (work_item_updates.filter isValidUpdate).map (singleUpdateOutcome post ws) := by
  intro work_item_updates
  induction work_item_updates with
  | nil => rfl
  | cons u rest ih =>
    cases hv : isValidUpdate u <;> simp [updateResults, List.filter_cons, hv, ih]

/-- Claim C2: when every entry is valid, the result of
`update_work_item_payloads` is one outcome per entry, in input order,
each computed by `singleUpdateOutcome` from that entry's own POST
response alone (success carries the decoded body, failure the raw text —
see `singleUpdateOutcome`); and an entry's outcome depends only on the
response to that entry's own request, so no entry's remote failure can
prevent, alter, or abort any other entry's execution.  The operation is
total (returns a `Json` value), so a remote failure never raises. -/
theorem update_work_item_payloads_batch_isolation (post : PostNet) (ws : String)
    (work_item_updates : List WorkItemUpdate)
    (hvalid : ∀ u ∈ work_item_updates, isValidUpdate u = true) :
    update_work_item_payloads post ws work_item_updates =
      Json.obj [("updates", Json.arr
        (work_item_updates.map (singleUpdateOutcome post ws)))]
    ∧ ∀ (post2 : PostNet) (u : WorkItemUpdate),
      post (updateUrl ws u.work_item_id) (some (updateBody u.payload))
          = post2 (updateUrl ws u.work_item_id) (some (updateBody u.payload)) →
      singleUpdateOutcome post ws u = singleUpdateOutcome post2 ws u := by
  constructor
  · rw [update_work_item_payloads, updateResults_eq,
      List.filter_eq_self.mpr hvalid]
  · intro post2 u hagree
    simp [singleUpdateOutcome, hagree]

theorem update_work_item_payloads_batch_isolation_witness :
    update_work_item_payloads (fun url _ =>
        if url = updateUrl "w" "i2" then ⟨500, Json.null, "err"⟩
        else ⟨200, Json.str "okbody", ""⟩) "w"
        [⟨"i1", [("k", Json.num 1)]⟩, ⟨"i2", [("k", Json.num 2)]⟩,
         ⟨"i3", [("k", Json.num 3)]⟩]
      = Json.obj [("updates", Json.arr
          [Json.obj [("work_item_id", Json.str "i1"), ("status", Json.str "success"),
            ("response", Json.str "okbody")],
           Json.obj [("work_item_id", Json.str "i2"), ("status", Json.str "failure"),
            ("error", Json.str "err")],
           Json.obj [("work_item_id", Json.str "i3"), ("status", Json.str "success"),
            ("response", Json.str "okbody")]])]
    ∧ singleUpdateOutcome (fun url _ =>
        if url = updateUrl "w" "i2" then ⟨500, Json.null, "err"⟩
        else ⟨200, Json.str "okbody", ""⟩) "w" ⟨"i1", [("k", Json.num 1)]⟩
      = singleUpdateOutcome (fun url _ =>
        if url = updateUrl "w" "i2" then ⟨404, Json.null, "other"⟩
        else ⟨200, Json.str "okbody", ""⟩) "w" ⟨"i1", [("k", Json.num 1)]⟩ := by
  constructor
  · have h := (update_work_item_payloads_batch_isolation (fun url _ =>
        if url = updateUrl "w" "i2" then ⟨500, Json.null, "err"⟩
        else ⟨200, Json.str "okbody", ""⟩) "w"
        [⟨"i1", [("k", Json.num 1)]⟩, ⟨"i2", [("k", Json.num 2)]⟩,
         ⟨"i3", [("k", Json.num 3)]⟩] (by decide)).1
    exact h.trans (by rfl)
  · exact (update_work_item_payloads_batch_isolation (fun url _ =>
        if url = updateUrl "w" "i2" then ⟨500, Json.null, "err"⟩
        else ⟨200, Json.str "okbody", ""⟩) "w" [] (by simp)).2
      (fun url _ =>
        if url = updateUrl "w" "i2" then ⟨404, Json.null, "other"⟩
        else ⟨200, Json.str "okbody", ""⟩) ⟨"i1", [("k", Json.num 1)]⟩ (by rfl)

/-- Claim C3: an update entry whose `work_item_id` is empty or whose
`payload` is empty is skipped entirely: removing it from the input leaves
the result unchanged (it contributes no outcome, success or failure), the
output length is the count of valid entries, and the result is unchanged
under any change of the remote's behaviour outside the valid entries'
requests — no remote call for a skipped entry can influence the result. -/
theorem update_work_item_payloads_validation_skip (post : PostNet) (ws : String)
    (pre suf : List WorkItemUpdate) (u : WorkItemUpdate)
    (hu : isValidUpdate u = false) :
    updateResults post ws (pre ++ u :: suf) = updateResults post ws (pre ++ suf)
    ∧ (updateResults post ws (pre ++ u :: suf)).length
        = ((pre ++ u :: suf).filter isValidUpdate).length
    ∧ ∀ (post2 : PostNet),
      (∀ v ∈ pre ++ u :: suf, isValidUpdate v = true →
        post (updateUrl ws v.work_item_id) (some (updateBody v.payload))
          = post2 (updateUrl ws v.work_item_id) (some (updateBody v.payload))) →
      updateResults post ws (pre ++ u :: suf)
        = updateResults post2 ws (pre ++ u :: suf) := by
  refine ⟨?_, ?_, ?_⟩
  · rw [updateResults_eq, updateResults_eq]
    simp [List.filter_append, List.filter_cons, hu]
  · rw [updateResults_eq]
    simp
  · intro post2 hagree
    rw [updateResults_eq, updateResults_eq]
    apply List.map_congr_left
    intro v hv
    rcases List.mem_filter.mp hv with ⟨hmem, hval⟩
    simp [singleUpdateOutcome, hagree v hmem hval]

theorem update_work_item_payloads_validation_skip_witness :
    updateResults (fun _ _ => ⟨200, Json.str "ok", ""⟩) "w"
        ([⟨"i1", [("k", Json.num 1)]⟩] ++ ⟨"i2", []⟩ :: [⟨"i3", [("k", Json.num 3)]⟩])
      = updateResults (fun _ _ => ⟨200, Json.str "ok", ""⟩) "w"
        ([⟨"i1", [("k", Json.num 1)]⟩] ++ [⟨"i3", [("k", Json.num 3)]⟩])
    ∧ (updateResults (fun _ _ => ⟨200, Json.str "ok", ""⟩) "w"
        ([⟨"i1", [("k", Json.num 1)]⟩] ++ ⟨"i2", []⟩
          :: [⟨"i3", [("k", Json.num 3)]⟩])).length = 2 := by
  have h := update_work_item_payloads_validation_skip
    (fun _ _ => ⟨200, Json.str "ok", ""⟩) "w"
    [⟨"i1", [("k", Json.num 1)]⟩] [⟨"i3", [("k", Json.num 3)]⟩]
    ⟨"i2", []⟩ (by decide)
  exact ⟨h.1, h.2.1.trans (by rfl)⟩

/-- Claim C7 (counterexample): the output does not contain one outcome
per input item for every input — an input whose single entry has an
empty payload yields zero outcomes, not one. -/
theorem update_outcomes_not_one_per_input :
    (updateResults (fun _ _ => ⟨200, Json.null, ""⟩) "w"
        [⟨"i1", []⟩]).length
      ≠ ([(⟨"i1", []⟩ : WorkItemUpdate)]).length := by
  decide

/-- Claim C7 (amended): `update_work_item_payloads` returns one
`MutationOutcome` per VALID input item (entries with an empty
`work_item_id` or an empty `payload` are skipped), in input order, never
short-circuited: for every input list the output length equals the count
of valid entries. -/
theorem update_outcomes_one_per_valid_input (post : PostNet) (ws : String)
    (work_item_updates : List WorkItemUpdate) :
    updateResults post ws work_item_updates =
      (work_item_updates.filter isValidUpdate).map (singleUpdateOutcome post ws)
    ∧ (updateResults post ws work_item_updates).length
        = (work_item_updates.filter isValidUpdate).length := by
  refine ⟨updateResults_eq post ws work_item_updates, ?_⟩
  rw [updateResults_eq]
  simp

/-- Claim C8: the `state` query parameter is appended to the request URL
if and only if the supplied value is in the operation's fixed allow-set
(`processRunStates` for process runs, `workItemStates` for work items);
any other value — and a null value, which is the `none` case both URLs
are compared against — is silently ignored and the URL is the unfiltered
one.  Building the URL is total, so no state value causes an error. -/
theorem state_filter_allow_list :
    (∀ (ws pid : String) (lim : Option Int) (s : String),
      list_process_runs_url ws ⟨pid, lim, some s⟩ =
        if processRunStates.contains s then
          list_process_runs_url ws ⟨pid, lim, none⟩ ++ "&state=" ++ s
        else list_process_runs_url ws ⟨pid, lim, none⟩)
    ∧ (∀ (ws pid prid : String) (s : String),
      list_work_items_url ws ⟨pid, prid, some s⟩ =
        if workItemStates.contains s then
          list_work_items_url ws ⟨pid, prid, none⟩ ++ "&state=" ++ s
        else list_work_items_url ws ⟨pid, prid, none⟩) := by
  constructor
  · intro ws pid lim s
    cases hc : processRunStates.contains s <;>
      simp only [list_process_runs_url, hc]
  · intro ws pid prid s
    cases hc : workItemStates.contains s <;>
      simp only [list_work_items_url, hc]

/-- Claim C9 (counterexample): the error raised on a failed remote call
does not carry the HTTP status: two failures with different statuses
(500 and 404) but the same body raise the very same error, so the status
cannot be recovered from it.  The claim that the raised error carries
both the status context and the body is therefore false. -/
theorem remote_error_lacks_status :
    make_get_request (fun _ => ⟨500, Json.null, "oops"⟩) (Json.str "u")
        = make_get_request (fun _ => ⟨404, Json.null, "oops"⟩) (Json.str "u")
    ∧ make_get_request (fun _ => ⟨500, Json.null, "oops"⟩) (Json.str "u")
        = .error "Failed to retrieve data: oops" := by
  exact ⟨rfl, rfl⟩

/-- Claim C9 (amended): whenever a remote call made by an operation
returns a status outside 200/201 and is not converted to a per-item
failure outcome, the operation raises an error whose message names the
failing operation and carries the raw response body verbatim; the
numeric HTTP status is not part of the error. -/
theorem remote_error_carries_body :
    (∀ (net : GetNet) (url : Json),
      ¬((net url).status = 200 ∨ (net url).status = 201) →
      make_get_request net url
        = .error ("Failed to retrieve data: " ++ (net url).text))
    ∧ (∀ (post : PostNet) (ws process_id : String),
      ¬((post (BASE_URL ++ "/" ++ ws ++ "/processes/" ++ process_id
            ++ "/process-runs") none).status = 200 ∨
        (post (BASE_URL ++ "/" ++ ws ++ "/processes/" ++ process_id
            ++ "/process-runs") none).status = 201) →
      start_process_run post ws process_id
        = .error ("Failed to start process run: "
            ++ (post (BASE_URL ++ "/" ++ ws ++ "/processes/" ++ process_id
              ++ "/process-runs") none).text))
    ∧ (∀ (post : PostNet) (ws : String) (work_item_ids : List String),
      ¬((post (BASE_URL ++ "/" ++ ws ++ "/work-items/batch")
          (some (Json.obj [("batch_operation", Json.str "retry"),
            ("work_item_ids", Json.arr (work_item_ids.map Json.str))]))).status = 200 ∨
        (post (BASE_URL ++ "/" ++ ws ++ "/work-items/batch")
          (some (Json.obj [("batch_operation", Json.str "retry"),
            ("work_item_ids", Json.arr (work_item_ids.map Json.str))]))).status = 201) →
      retry_work_items post ws work_item_ids
        = .error ("Failed to retry work items: "
            ++ (post (BASE_URL ++ "/" ++ ws ++ "/work-items/batch")
              (some (Json.obj [("batch_operation", Json.str "retry"),
                ("work_item_ids",
                  Json.arr (work_item_ids.map Json.str))]))).text)) := by
  refine ⟨?_, ?_, ?_⟩
  · intro net url h
    simp only [make_get_request]
    rw [if_neg h]
  · intro post ws process_id h
    simp only [start_process_run]
    rw [if_neg h]
  · intro post ws work_item_ids h
    simp only [retry_work_items]
    rw [if_neg h]

theorem remote_error_carries_body_witness :
    make_get_request (fun _ => ⟨503, Json.null, "unavailable"⟩) (Json.str "u")
        = .error "Failed to retrieve data: unavailable"
    ∧ start_process_run (fun _ _ => ⟨503, Json.null, "unavailable"⟩) "w" "p"
        = .error "Failed to start process run: unavailable"
    ∧ retry_work_items (fun _ _ => ⟨503, Json.null, "unavailable"⟩) "w" ["a"]
        = .error "Failed to retry work items: unavailable" := by
  refine ⟨?_, ?_, ?_⟩
  · exact (remote_error_carries_body.1 (fun _ => ⟨503, Json.null, "unavailable"⟩)
      (Json.str "u") (by decide)).trans (by rfl)
  · exact (remote_error_carries_body.2.1 (fun _ _ => ⟨503, Json.null, "unavailable"⟩)
      "w" "p" (by decide)).trans (by rfl)
  · exact (remote_error_carries_body.2.2 (fun _ _ => ⟨503, Json.null, "unavailable"⟩)
      "w" ["a"] (by decide)).trans (by rfl)

/-- Claim C10: an input that omits the `limit` field gets the model
default of 10 (the structure-field default mirroring the pydantic
`Field(10)` default), and the request URL then carries `&limit=10`; the
`limit` parameter is absent from the URL exactly when the caller
explicitly supplies a null (`none`) limit. -/
theorem list_process_runs_default_limit (ws process_id : String) :
    list_process_runs_url ws { process_id := process_id } =
      BASE_URL ++ "/" ++ ws ++ "/process-runs?process_id=" ++ process_id
        ++ "&limit=" ++ "10"
    ∧ list_process_runs_url ws ⟨process_id, some 10, none⟩
        = list_process_runs_url ws { process_id := process_id }
    ∧ list_process_runs_url ws ⟨process_id, none, none⟩
        = BASE_URL ++ "/" ++ ws ++ "/process-runs?process_id=" ++ process_id := by
  exact ⟨rfl, rfl, rfl⟩
